import Mathlib

/-!
Verification development for the TLS utility module
(src/src/modules/tls/tls_util.c): the reference-counted configuration
chain sweep (collect_garbage), the keylog line filter
(ksr_tls_keylog_vfilter_match), the file sink
(ksr_tls_keylog_file_init / ksr_tls_keylog_file_write), the peer sink
(ksr_tls_keylog_peer_init / ksr_tls_keylog_peer_send), and the shared
memory string duplication helper (shm_asciiz_dup).

External collaborators (shared allocator, locks, file system, name
resolution, datagram send) are modelled as explicit oracle parameters;
the functions themselves follow the C source line by line.
-/

/-! ## Configuration generation chain (ConfigRegistry) -/

/-- One TLS configuration generation node (tls_domains_cfg_t view):
its identity and its atomic reference count. The chain is modelled as a
Lean list, head first, `next` pointers being the list tail. -/
structure Cfg where
  id : Nat
  ref_count : Nat
  deriving Repr, DecidableEq

/-- The prev/cur/next unlink loop of collect_garbage (tls_util.c lines
98-109), run over the part of the chain after the head: returns the
nodes kept linked (first component, in order) and the nodes passed to
tls_free_cfg (second component, in traversal order). A node is unlinked
and freed exactly when the observed atomic ref_count equals zero. -/
def collect_pass : List Cfg → List Cfg × List Cfg
  | [] => ([], [])
  | c :: rest =>
    let r := collect_pass rest
    if c.ref_count = 0 then (r.1, c :: r.2) else (c :: r.1, r.2)

/-- collect_garbage (tls_util.c lines 83-112): skips the current
configuration (chain head), then runs the unlink loop over the rest.
Returns the resulting chain and the list of freed nodes. The C code
holds tls_domains_cfg_lock for the whole pass, so the pass is modelled
as one atomic step. The empty-chain case never arises in the C code
(the head is always present); it is mapped to the empty result. -/
def collect_garbage : List Cfg → List Cfg × List Cfg
  | [] => ([], [])
  | h :: t => (h :: (collect_pass t).1, (collect_pass t).2)

/-- Registry operations that interleave with the sweep. -/
inductive RegOp where
  | acquire_current : RegOp
  | release : Nat → RegOp
  | publish : Cfg → RegOp
  | sweep : RegOp
  deriving Repr, DecidableEq

/-- Registry state: the generation chain (head = current generation)
and the log of nodes freed so far, each recorded exactly as it was at
the moment it was freed. -/
structure RegState where
  chain : List Cfg
  freed : List Cfg
  deriving Repr, DecidableEq

/-- One registry step. sweep is collect_garbage from the source.
Modelled from the spec: acquire_current, release and publish live in
tls_domain.c, which is not under src/; following spec section 4.1,
acquire_current atomically increments the head generation ref count,
release atomically decrements the ref count of the named generation,
and publish inserts the new generation as the new head, the prior head
becoming its successor in the retirement chain. -/
def reg_step (s : RegState) : RegOp → RegState
  | RegOp.acquire_current =>
    match s.chain with
    | [] => s
    | h :: t => ⟨{ h with ref_count := h.ref_count + 1 } :: t, s.freed⟩
  | RegOp.release i =>
    ⟨s.chain.map (fun c => if c.id = i then { c with ref_count := c.ref_count - 1 } else c),
      s.freed⟩
  | RegOp.publish g => ⟨g :: s.chain, s.freed⟩
  | RegOp.sweep =>
    ⟨(collect_garbage s.chain).1, s.freed ++ (collect_garbage s.chain).2⟩

/-- Run a sequence of registry operations from a state. -/
def reg_run (s : RegState) (ops : List RegOp) : RegState :=
  ops.foldl reg_step s

/-! ## Keylog sinks -/

/-- A Kamailio counted string (str): a nullable character pointer and a
signed length. -/
structure KeylogStr where
  s : Option String
  len : Int
  deriving Repr, DecidableEq

/-- Modelled from the spec: KSR_TLS_KEYLOG_MODE_INIT, the mode bit for
"initialization requested", defined in tls_mod.h which is not under
src/. Per spec section 4.2 the mode flags form a bitmask with an
initialization-requested bit and per-channel enabled bits; the concrete
bit positions do not matter to any claim, only their use as a mask. -/
def KSR_TLS_KEYLOG_MODE_INIT : Nat := 1

/-- Modelled from the spec: KSR_TLS_KEYLOG_MODE_FILE, the mode bit
enabling the file delivery channel (tls_mod.h, not under src/). -/
def KSR_TLS_KEYLOG_MODE_FILE : Nat := 2

/-- Modelled from the spec: KSR_TLS_KEYLOG_MODE_PEER, the mode bit
enabling the peer delivery channel (tls_mod.h, not under src/). -/
def KSR_TLS_KEYLOG_MODE_PEER : Nat := 4

/-- ksr_tls_keylog_file_init (tls_util.c lines 133-156). State and
oracles made explicit: mode is the nullable ksr_tls_keylog_mode value,
file is ksr_tls_keylog_file, lock tells whether
ksr_tls_keylog_file_lock is already non-null, alloc_ok is the outcome
of lock_alloc and init_ok the outcome of lock_init. Returns the C
return value and the new lock state (non-null or not). -/
def ksr_tls_keylog_file_init (mode : Option Nat) (file : KeylogStr)
    (lock : Bool) (alloc_ok : Bool) (init_ok : Bool) : Int × Bool :=
  match mode with
  | none => (0, lock)
  | some m =>
    if ¬(m &&& KSR_TLS_KEYLOG_MODE_INIT ≠ 0 ∧ m &&& KSR_TLS_KEYLOG_MODE_FILE ≠ 0) then
      (0, lock)
    else if file.s = none ∨ file.len ≤ 0 then (-1, lock)
    else if lock then (0, lock)
    else if ¬alloc_ok then (-2, false)
    else if ¬init_ok then (-3, true)
    else (0, true)

/-- The six allow-list entries of ksr_tls_keylog_vfilters (tls_util.c
lines 162-170), each carrying its trailing space as in the source;
the terminating NULL becomes the end of the list. -/
def ksr_tls_keylog_vfilters : List String :=
  ["CLIENT_RANDOM ",
   "CLIENT_HANDSHAKE_TRAFFIC_SECRET ",
   "SERVER_HANDSHAKE_TRAFFIC_SECRET ",
   "EXPORTER_SECRET ",
   "CLIENT_TRAFFIC_SECRET_0 ",
   "SERVER_TRAFFIC_SECRET_0 "]

/-- ASCII lower-casing of one character, as strcasecmp does per byte. -/
def asciiLower (c : Char) : Char :=
  if 'A' ≤ c ∧ c ≤ 'Z' then Char.ofNat (c.toNat + 32) else c

/-- Whole-string case-insensitive equality: the strcasecmp(a, b) == 0
outcome. -/
def strcasecmp_eq (a b : String) : Bool :=
  a.data.map asciiLower == b.data.map asciiLower

/-- The scan loop of ksr_tls_keylog_vfilter_match (tls_util.c lines
180-184): walk the filter table, return 1 on the first case-insensitive
whole-string match, 0 when the table is exhausted. -/
def vfilter_scan : List String → String → Int
  | [], _ => 0
  | f :: rest, line => if strcasecmp_eq f line then 1 else vfilter_scan rest line

/-- ksr_tls_keylog_vfilter_match (tls_util.c lines 176-186). -/
def ksr_tls_keylog_vfilter_match (line : String) : Int :=
  vfilter_scan ksr_tls_keylog_vfilters line

/-- Observable effects of one ksr_tls_keylog_file_write call, in
order. -/
inductive FsEvent where
  | lock_get : FsEvent
  | fopen_append : FsEvent
  | fwrite_str : String → FsEvent
  | fclose : FsEvent
  | lock_release : FsEvent
  deriving Repr, DecidableEq

/-- ksr_tls_keylog_file_write (tls_util.c lines 191-211). lock tells
whether ksr_tls_keylog_file_lock is non-null, open_ok is the outcome of
fopen in append mode, file is the current file content. Returns the C
return value, the new file content and the event trace of the call.
fprintf with format percent-s-newline appends the line followed by a
newline terminator. -/
def ksr_tls_keylog_file_write (lock : Bool) (open_ok : Bool)
    (file : String) (line : String) : Int × String × List FsEvent :=
  if ¬lock then (0, file, [])
  else if open_ok then
    (0, file ++ line ++ "\n",
      [FsEvent.lock_get, FsEvent.fopen_append, FsEvent.fwrite_str (line ++ "\n"),
       FsEvent.fclose, FsEvent.lock_release])
  else
    (-1, file, [FsEvent.lock_get, FsEvent.fopen_append, FsEvent.lock_release])

/-- Protocol number PROTO_UDP of the core (ip_addr.h, external
collaborator); the concrete value is irrelevant to the claims, only
equality with the proto produced by parse_phostport matters. -/
def PROTO_UDP : Nat := 1

/-- Result of a successful parse_phostport call (external resolver
collaborator): host, port and protocol. -/
structure PhostportRes where
  host : String
  port : Nat
  proto : Nat
  deriving Repr, DecidableEq

/-- ksr_tls_keylog_peer_init (tls_util.c lines 217-252). mode is the
nullable ksr_tls_keylog_mode value, peer is ksr_tls_keylog_peer,
parse_res the outcome of parse_phostport (none on parse failure) and
resolve_ok the outcome of sip_hostport2su. Returns the C return
value. -/
def ksr_tls_keylog_peer_init (mode : Option Nat) (peer : KeylogStr)
    (parse_res : Option PhostportRes) (resolve_ok : Bool) : Int :=
  match mode with
  | none => 0
  | some m =>
    if ¬(m &&& KSR_TLS_KEYLOG_MODE_INIT ≠ 0 ∧ m &&& KSR_TLS_KEYLOG_MODE_PEER ≠ 0) then 0
    else if peer.s = none ∨ peer.len ≤ 0 then -1
    else
      match parse_res with
      | none => -2
      | some r =>
        if r.proto ≠ PROTO_UDP then -3
        else if ¬resolve_ok then -4
        else 0

/-- ksr_tls_keylog_peer_send (tls_util.c lines 257-281). mode is the
nullable ksr_tls_keylog_mode value, send_sock the cached
ksr_tls_keylog_peer_dst.send_sock handle, get_sock the outcome of
get_send_socket (none on failure) and udp_ok the outcome of udp_send.
Returns the C return value, the new send_sock state, and the list of
datagram payloads put on the wire by the call: udp_send transmits the
line as one datagram of exactly strlen(line) bytes. -/
def ksr_tls_keylog_peer_send (mode : Option Nat) (send_sock : Option Nat)
    (get_sock : Option Nat) (udp_ok : Bool) (line : String) :
    Int × Option Nat × List String :=
  match mode with
  | none => (0, send_sock, [])
  | some m =>
    if ¬(m &&& KSR_TLS_KEYLOG_MODE_INIT ≠ 0 ∧ m &&& KSR_TLS_KEYLOG_MODE_PEER ≠ 0) then
      (0, send_sock, [])
    else
      match send_sock with
      | none =>
        match get_sock with
        | none => (-2, none, [])
        | some sk => if udp_ok then (0, some sk, [line]) else (-1, some sk, [])
      | some sk => if udp_ok then (0, some sk, [line]) else (-1, some sk, [])

/-- shm_asciiz_dup (tls_util.c lines 58-77). dest is the value behind
the dest pointer before the call, val the nullable input string,
alloc_ok the outcome of shm_malloc. Returns the C return value and the
value behind dest after the call: on null val, dest is set to null; on
success, dest is set to a fresh exact copy of val (memcpy of len+1
bytes copies the characters and the terminator); on allocation failure
dest is left untouched. -/
def shm_asciiz_dup (dest : Option String) (val : Option String)
    (alloc_ok : Bool) : Int × Option String :=
  match val with
  | none => (0, none)
  | some v => if alloc_ok then (0, some v) else (-1, dest)

/-! ## Theorems about the chain sweep -/

theorem collect_pass_eq (t : List Cfg) :
    collect_pass t
      = (t.filter (fun c => !(c.ref_count == 0)), t.filter (fun c => c.ref_count == 0)) := by
  induction t with
  | nil => rfl
  | cons c rest ih =>
    by_cases hc : c.ref_count = 0 <;>
      simp [collect_pass, ih, List.filter_cons, hc]

theorem reg_step_freed_all_zero (s : RegState) (op : RegOp)
    (h : s.freed.all (fun c => c.ref_count == 0) = true) :
    ((reg_step s op).freed).all (fun c => c.ref_count == 0) = true := by
  cases op with
  | acquire_current =>
    cases hc : s.chain <;> simp [reg_step, hc, h]
  | release i => simpa [reg_step] using h
  | publish g => simpa [reg_step] using h
  | sweep =>
    cases hc : s.chain with
    | nil => simpa [reg_step, hc, collect_garbage] using h
    | cons hd tl =>
      simp only [reg_step, hc, collect_garbage, collect_pass_eq, List.all_append,
        Bool.and_eq_true]
      refine And.intro h ?_
      simp [List.all_eq_true, List.mem_filter]

/-- Claim C1: for every sequence of acquire/release operations
interleaved with publish and sweep, starting from any chain with an
empty freed log, every node ever freed had reference count zero at the
moment collect_garbage freed it: no generation is freed while its
reference count is nonzero. -/
theorem sweep_no_free_while_referenced (ops : List RegOp) (chain : List Cfg) :
    ((reg_run ⟨chain, []⟩ ops).freed).all (fun c => c.ref_count == 0) = true := by
  have key : ∀ l : List RegOp, ∀ s : RegState,
      s.freed.all (fun c => c.ref_count == 0) = true →
      ((reg_run s l).freed).all (fun c => c.ref_count == 0) = true := by
    intro l
    induction l with
    | nil => intro s h; simpa [reg_run] using h
    | cons op rest ih =>
      intro s h
      exact ih (reg_step s op) (reg_step_freed_all_zero s op h)
  exact key ops ⟨chain, []⟩ (by simp)

/-- Claim C2: collect_garbage never frees the chain head, even when the
head reference count is zero: for every chain state the head node is
unchanged and still the head after the sweep, and everything freed is
drawn from the part of the chain after the head. -/
theorem sweep_spares_head (h : Cfg) (t : List Cfg) :
    ((collect_garbage (h :: t)).1).head? = some h
    ∧ List.Sublist (collect_garbage (h :: t)).2 t := by
  refine And.intro ?_ ?_
  · simp [collect_garbage]
  · simp only [collect_garbage, collect_pass_eq]
    exact List.filter_sublist t

/-- Claim C3: a single sweep pass keeps the head, unlinks and frees
exactly the non-head nodes of reference count zero, and keeps every
still-referenced node, relative order preserved (both components are
filters of the original tail); and after publish of g2 over a chain
headed by g1, a sweep leaves g2 as head, with g1 removed exactly when
its reference count was zero. -/
theorem sweep_filters_tail (h g1 g2 : Cfg) (t rest : List Cfg) :
    collect_garbage (h :: t)
      = (h :: t.filter (fun c => !(c.ref_count == 0)),
         t.filter (fun c => c.ref_count == 0))
    ∧ (reg_run ⟨g1 :: rest, []⟩ [RegOp.publish g2, RegOp.sweep]).chain
      = g2 :: (if g1.ref_count = 0
               then rest.filter (fun c => !(c.ref_count == 0))
               else g1 :: rest.filter (fun c => !(c.ref_count == 0))) := by
  refine And.intro ?_ ?_
  · simp [collect_garbage, collect_pass_eq]
  · by_cases hg : g1.ref_count = 0 <;>
      simp [reg_run, reg_step, collect_garbage, collect_pass_eq, List.filter_cons, hg]

/-! ## Theorems about the keylog sinks -/

/-- Claim C4: ksr_tls_keylog_vfilter_match returns 1 exactly when line
matches one of the six canonical secret-line labels of the allow list
case-insensitively, and returns 0 for every other string, including the
empty string and partial matches. -/
theorem vfilter_match_charact (line : String) :
    (ksr_tls_keylog_vfilter_match line = 1 ↔
      (strcasecmp_eq "CLIENT_RANDOM " line = true
        ∨ strcasecmp_eq "CLIENT_HANDSHAKE_TRAFFIC_SECRET " line = true
        ∨ strcasecmp_eq "SERVER_HANDSHAKE_TRAFFIC_SECRET " line = true
        ∨ strcasecmp_eq "EXPORTER_SECRET " line = true
        ∨ strcasecmp_eq "CLIENT_TRAFFIC_SECRET_0 " line = true
        ∨ strcasecmp_eq "SERVER_TRAFFIC_SECRET_0 " line = true))
    ∧ (ksr_tls_keylog_vfilter_match line = 0 ↔ ¬ ksr_tls_keylog_vfilter_match line = 1)
    ∧ ksr_tls_keylog_vfilter_match "" = 0
    ∧ ksr_tls_keylog_vfilter_match "CLIENT_RANDOM" = 0
    ∧ ksr_tls_keylog_vfilter_match "CLIENT_RANDOM abcd" = 0
    ∧ ksr_tls_keylog_vfilter_match "client_random " = 1 := by
  refine And.intro ?_ (And.intro ?_ (And.intro ?_ (And.intro ?_ (And.intro ?_ ?_))))
  · simp only [ksr_tls_keylog_vfilter_match, ksr_tls_keylog_vfilters, vfilter_scan]
    split_ifs with h1 h2 h3 h4 h5 h6 <;> simp_all
  · simp only [ksr_tls_keylog_vfilter_match, ksr_tls_keylog_vfilters, vfilter_scan]
    split_ifs <;> simp
  · decide
  · decide
  · decide
  · decide

/-- Claim C5: with the guarding lock unset (sink never initialized),
ksr_tls_keylog_file_write returns 0, leaves the file untouched and
performs no lock or file operation at all. -/
theorem file_write_uninit_noop (open_ok : Bool) (file line : String) :
    ksr_tls_keylog_file_write false open_ok file line = (0, file, []) := by
  simp [ksr_tls_keylog_file_write]

/-- Claim C6: with the sink initialized, every ksr_tls_keylog_file_write
call takes the lock first and releases it last on both exit paths; with
the open succeeding it appends the line followed by a newline between
fopen and fclose and returns 0; with the open failing it returns -1 and
leaves the file unchanged, and nothing is disabled: the same lock state
retried with a succeeding open appends normally. -/
theorem file_write_locked_behavior (open_ok : Bool) (file line line2 : String) :
    ((ksr_tls_keylog_file_write true open_ok file line).2.2).head? = some FsEvent.lock_get
    ∧ ((ksr_tls_keylog_file_write true open_ok file line).2.2).getLast?
        = some FsEvent.lock_release
    ∧ ksr_tls_keylog_file_write true true file line
        = (0, file ++ line ++ "\n",
           [FsEvent.lock_get, FsEvent.fopen_append, FsEvent.fwrite_str (line ++ "\n"),
            FsEvent.fclose, FsEvent.lock_release])
    ∧ (ksr_tls_keylog_file_write true false file line).1 = -1
    ∧ (ksr_tls_keylog_file_write true false file line).2.1 = file
    ∧ (ksr_tls_keylog_file_write true true
        ((ksr_tls_keylog_file_write true false file line).2.1) line2).2.1
        = file ++ line2 ++ "\n" := by
  cases open_ok <;> simp [ksr_tls_keylog_file_write]

/-- Claim C7: with keylog file mode requested and enabled and a nonempty
file path, ksr_tls_keylog_file_init initializes the lock at most once:
with the lock already set the call returns 0 and changes nothing, for
any behavior of the allocation and initialization oracles; with the
lock unset, a lock_alloc failure yields -2 and a lock_init failure
yields -3, and the two failure codes are distinct. -/
theorem file_init_once_and_codes (m : Nat) (file : KeylogStr) (a2 i2 : Bool)
    (hm1 : m &&& KSR_TLS_KEYLOG_MODE_INIT ≠ 0)
    (hm2 : m &&& KSR_TLS_KEYLOG_MODE_FILE ≠ 0)
    (hs : file.s ≠ none) (hl : 0 < file.len) :
    ksr_tls_keylog_file_init (some m) file true a2 i2 = (0, true)
    ∧ (ksr_tls_keylog_file_init (some m) file false false i2).1 = -2
    ∧ (ksr_tls_keylog_file_init (some m) file false true false).1 = -3
    ∧ ((-2 : Int) ≠ -3) := by
  have hguard : ¬(file.s = none ∨ file.len ≤ 0) := by
    push_neg
    refine And.intro hs (by omega)
  refine And.intro ?_ (And.intro ?_ (And.intro ?_ (by decide))) <;>
    simp [ksr_tls_keylog_file_init, hm1, hm2, hguard]

/-- Concrete instantiation of the C7 theorem: mode bits 3 with a
nonempty path, lock already set gives success unchanged even with both
oracles failing, and an allocation failure from the unset state gives
-2. -/
theorem file_init_once_and_codes_witness :
    ksr_tls_keylog_file_init (some 3) ⟨some "/tmp/keys.log", 13⟩ true false false = (0, true)
    ∧ (ksr_tls_keylog_file_init (some 3) ⟨some "/tmp/keys.log", 13⟩ false false true).1 = -2 := by
  have h := file_init_once_and_codes 3 ⟨some "/tmp/keys.log", 13⟩ false false
      (by decide) (by decide) (by simp) (by decide)
  exact And.intro h.1 h.2.1

/-- Claim C8: ksr_tls_keylog_peer_init returns 0 without doing anything
unless peer mode is both requested and enabled; when active it returns
-1 on an empty address string, -2 on host and port parse failure, -3
when the parsed protocol is not UDP, -4 on resolution failure, and 0 on
full success; the four failure codes are pairwise distinct. -/
theorem peer_init_codes (m m0 : Nat) (peer : KeylogStr) (rb rg : PhostportRes) (ro : Bool)
    (hm1 : m &&& KSR_TLS_KEYLOG_MODE_INIT ≠ 0)
    (hm2 : m &&& KSR_TLS_KEYLOG_MODE_PEER ≠ 0)
    (h0 : ¬(m0 &&& KSR_TLS_KEYLOG_MODE_INIT ≠ 0 ∧ m0 &&& KSR_TLS_KEYLOG_MODE_PEER ≠ 0))
    (hs : peer.s ≠ none) (hl : 0 < peer.len)
    (hrb : rb.proto ≠ PROTO_UDP) (hrg : rg.proto = PROTO_UDP) :
    ksr_tls_keylog_peer_init none peer (some rg) ro = 0
    ∧ ksr_tls_keylog_peer_init (some m0) peer (some rg) ro = 0
    ∧ ksr_tls_keylog_peer_init (some m) ⟨none, peer.len⟩ (some rg) ro = -1
    ∧ ksr_tls_keylog_peer_init (some m) peer none ro = -2
    ∧ ksr_tls_keylog_peer_init (some m) peer (some rb) ro = -3
    ∧ ksr_tls_keylog_peer_init (some m) peer (some rg) false = -4
    ∧ ksr_tls_keylog_peer_init (some m) peer (some rg) true = 0
    ∧ ((-1 : Int) ≠ -2 ∧ (-1 : Int) ≠ -3 ∧ (-1 : Int) ≠ -4
        ∧ (-2 : Int) ≠ -3 ∧ (-2 : Int) ≠ -4 ∧ (-3 : Int) ≠ -4) := by
  have hguard : ¬(peer.s = none ∨ peer.len ≤ 0) := by
    push_neg
    refine And.intro hs (by omega)
  refine And.intro rfl (And.intro ?_ (And.intro ?_ (And.intro ?_ (And.intro ?_
    (And.intro ?_ (And.intro ?_ (by decide))))))) <;>
    simp [ksr_tls_keylog_peer_init, hm1, hm2, h0, hguard, hrb, hrg]

/-- Concrete instantiation of the C8 theorem: with peer mode 5 and
address 127.0.0.1:9999, a TCP parse result yields -3 and a UDP parse
result with successful resolution yields 0. -/
theorem peer_init_codes_witness :
    ksr_tls_keylog_peer_init (some 5) ⟨some "127.0.0.1:9999", 14⟩
        (some ⟨"127.0.0.1", 9999, 2⟩) true = -3
    ∧ ksr_tls_keylog_peer_init (some 5) ⟨some "127.0.0.1:9999", 14⟩
        (some ⟨"127.0.0.1", 9999, 1⟩) true = 0 := by
  have h := peer_init_codes 5 2 ⟨some "127.0.0.1:9999", 14⟩ ⟨"127.0.0.1", 9999, 2⟩
      ⟨"127.0.0.1", 9999, 1⟩ true (by decide) (by decide) (by decide) (by simp)
      (by decide) (by decide) (by decide)
  exact And.intro h.2.2.2.2.1 h.2.2.2.2.2.2.1

/-- Claim C9: ksr_tls_keylog_peer_send returns 0 and transmits nothing
when peer mode is not active; when active with no cached handle it
returns -2 and leaves the handle unset when handle creation fails, so a
later call retries creation; on success, lazily created or cached, it
transmits exactly one datagram whose payload is the exact byte sequence
of the line. -/
theorem peer_send_behavior (m m0 : Nat) (sock gs : Option Nat) (uo : Bool)
    (sk : Nat) (line : String)
    (hm1 : m &&& KSR_TLS_KEYLOG_MODE_INIT ≠ 0)
    (hm2 : m &&& KSR_TLS_KEYLOG_MODE_PEER ≠ 0)
    (h0 : ¬(m0 &&& KSR_TLS_KEYLOG_MODE_INIT ≠ 0 ∧ m0 &&& KSR_TLS_KEYLOG_MODE_PEER ≠ 0)) :
    ksr_tls_keylog_peer_send none sock gs uo line = (0, sock, [])
    ∧ ksr_tls_keylog_peer_send (some m0) sock gs uo line = (0, sock, [])
    ∧ ksr_tls_keylog_peer_send (some m) none none uo line = (-2, none, [])
    ∧ ksr_tls_keylog_peer_send (some m) none (some sk) true line = (0, some sk, [line])
    ∧ ksr_tls_keylog_peer_send (some m) (some sk) gs true line = (0, some sk, [line]) := by
  refine And.intro rfl (And.intro ?_ (And.intro ?_ (And.intro ?_ ?_))) <;>
    simp [ksr_tls_keylog_peer_send, hm1, hm2, h0]

/-- Concrete instantiation of the C9 theorem: with peer mode 5, a send
with a cached handle puts exactly one datagram holding the exact line
bytes on the wire, and a failed lazy creation returns -2 with the
handle still unset. -/
theorem peer_send_behavior_witness :
    ksr_tls_keylog_peer_send (some 5) (some 7) none true "CLIENT_RANDOM abcd"
        = (0, some 7, ["CLIENT_RANDOM abcd"])
    ∧ ksr_tls_keylog_peer_send (some 5) none none true "CLIENT_RANDOM abcd"
        = (-2, none, []) := by
  have h := peer_send_behavior 5 2 (some 7) none true 7 "CLIENT_RANDOM abcd"
      (by decide) (by decide) (by decide)
  exact And.intro h.2.2.2.2 h.2.2.1

/-- Claim C10: shm_asciiz_dup maps a null input to a null dest with
return 0; with allocation succeeding it sets dest to an exact copy of
the input string and returns 0; with allocation failing it returns -1
and leaves dest exactly as it was. -/
theorem shm_asciiz_dup_spec (dest : Option String) (v : String) (ao : Bool) :
    shm_asciiz_dup dest none ao = (0, none)
    ∧ shm_asciiz_dup dest (some v) true = (0, some v)
    ∧ shm_asciiz_dup dest (some v) false = (-1, dest) := by
  refine And.intro rfl (And.intro ?_ ?_) <;> simp [shm_asciiz_dup]
